import Mathlib

/-!
Shallow embedding of the plugin server coordinator in kong_pdk/server.py:
the plugin registry, the instance table, the continuation (event) table,
the begin/resume protocol (handle_event / _step), the expiry sweeper, and
the admin surface.  Each stateful method is embedded as a function from an
explicit server state to a new state, a trace of lock/channel/hook actions,
and a result that is either a Python-style (result, error) return pair or a
raised exception.
-/

set_option autoImplicit false

namespace KongPdk

/-- Decoded JSON values: the output type of the external json.loads. -/
inductive Json where
  | null : Json
  | bool (b : Bool) : Json
  | num (n : Int) : Json
  | str (s : String) : Json
  | arr (xs : List Json) : Json
  | obj (kvs : List (String × Json)) : Json

/-- Python exceptions that the embedded methods can raise. -/
inductive PyErr where
  | pluginServerException (msg : String) : PyErr
  | typeError (msg : String) : PyErr
  | jsonDecodeError : PyErr
  | attributeError (name : String) : PyErr
  deriving Repr, DecidableEq

/-- Observable side effects of a method, in execution order: lock
acquisition/release, blocking channel receive/send, the instance close hook,
spawning a worker, and deleting an instance table entry. -/
inductive Action where
  | acquire (lk : String) : Action
  | release (lk : String) : Action
  | chanGet : Action
  | chanPut (payload : Option String × Option String) : Action
  | closeCb (iid : Nat) : Action
  | spawnWorker (eid : Nat) : Action
  | delInstance (iid : Nat) : Action
  deriving Repr, DecidableEq

/-- A Python method outcome: either a raised exception, or a normal return of
the (result, error) pair convention used across the RPC surface. -/
abbrev Ret (α : Type) := Except PyErr (Option α × Option String)

/-- TypeError message of %-formatting when arguments are left unconsumed. -/
def TE_NOT_ALL_ARGS : String := "not all arguments converted during string formatting"

/-- TypeError message of %-formatting when arguments run out. -/
def TE_NOT_ENOUGH_ARGS : String := "not enough arguments for format string"

/-- TypeError message of subscript access on a plain object. -/
def TE_NOT_SUBSCRIPTABLE : String := "object is not subscriptable"

/-- Name of the instance table lock. -/
def I_LOCK : String := "i_lock"

/-- Name of the continuation table lock. -/
def E_LOCK : String := "e_lock"

/-- Format string of the instance_status / close_instance not-found message. -/
def FMT_INSTANCE_NOT_FOUND : String := "instance #%s not found"

/-- Format string of the handle_event unknown-instance message. -/
def FMT_INSTANCE_ID_NOT_FOUND : String := "instance id %s not found"

/-- Format string of the _step unknown-event message. -/
def FMT_EVENT_ID_NOT_FOUND : String := "event id %s not found"

/-- The defective not-found message of get_plugin_info and start_instance:
it carries no conversion specifier at all. -/
def FMT_NOT_INITIZLIED : String := " not initizlied"

/-- Number of %s conversion specifiers in a format string. -/
def countPercentS : List Char → Nat
  | [] => 0
  | '%' :: 's' :: rest => 1 + countPercentS rest
  | _ :: rest => countPercentS rest

/-- Substitute the single %s specifier by the argument characters. -/
def substOne : List Char → List Char → List Char
  | [], _ => []
  | '%' :: 's' :: rest, arg => arg ++ rest
  | c :: rest, arg => c :: substOne rest arg

/-- Python %-formatting of a format string with one (string) argument:
with no specifier it raises TypeError (not all arguments converted), with
exactly one it substitutes, with more it raises TypeError (not enough
arguments). -/
def pyFormatS (fmt arg : String) : Except PyErr String :=
  match countPercentS fmt.toList with
  | 0 => .error (.typeError TE_NOT_ALL_ARGS)
  | 1 => .ok (String.mk (substOne fmt.toList arg.toList))
  | _ => .error (.typeError TE_NOT_ENOUGH_ARGS)

/-- raise PluginServerException(fmt % arg): the formatting itself may raise
TypeError before the exception is built. -/
def raiseFmt (fmt arg : String) : PyErr :=
  match pyFormatS fmt arg with
  | .ok s => .pluginServerException s
  | .error e => e

/-- First value bound to a key in an association list (Python dict lookup). -/
def lookupA {κ α : Type} [DecidableEq κ] : List (κ × α) → κ → Option α
  | [], _ => none
  | (k, v) :: rest, i => if k = i then some v else lookupA rest i

/-- Remove every binding of a key (Python del on a dict key). -/
def eraseA {κ α : Type} [DecidableEq κ] : List (κ × α) → κ → List (κ × α)
  | [], _ => []
  | (k, v) :: rest, i => if k = i then eraseA rest i else (k, v) :: eraseA rest i

/-- Rebind a key that is already present (Python dict item assignment on an
existing key keeps its position). -/
def updateA {κ α : Type} [DecidableEq κ] : List (κ × α) → κ → α → List (κ × α)
  | [], _, _ => []
  | (k, v) :: rest, i, w => if k = i then (k, w) :: updateA rest i w else (k, v) :: updateA rest i w

/-- The reserved terminal sentinel MSG_RET. -/
def MSG_RET : String := "ret"

/-- Modelled from the spec: a PluginDefinition (module.py is not under src/)
carries its name, declared phases, priority and configuration schema; the
schema entries are kept opaque. -/
structure Plugin where
  name : String
  phases : List String
  priority : Int
  schema : List Json

/-- Modelled from the spec: a PluginInstance (the instance class of module.py
is not under src/) is a plain record holding the definition name, the decoded
configuration, the handler phases of its class, the creation time and the
last-active (expiry) timestamp. -/
structure PInstance where
  name : String
  config : Json
  phases : List String
  start_time : Nat
  expire_ts : Nat

/-- instance.reset_expire_ts(): refresh the last-active timestamp. -/
def PInstance.reset_expire_ts (ins : PInstance) (now : Nat) : PInstance :=
  { ins with expire_ts := now }

/-- instance.is_expired(ttl): time.time() - expire_ts > ttl. -/
def PInstance.is_expired (ins : PInstance) (now ttl : Nat) : Bool :=
  ttl < now - ins.expire_ts

/-- Modelled from the spec: the instance class of module.py (not under src/)
is a plain record per section 3 of the spec, so the subscript access
ins[key] used by close_instance raises TypeError, the defect flagged in
section 9 of the spec. -/
def PInstance.getItem (_ins : PInstance) (_key : String) : Except PyErr Json :=
  .error (.typeError TE_NOT_SUBSCRIPTABLE)

/-- plugin.new(config): modelled from the spec, the instantiation hook builds
a fresh instance with the decoded config, creation time now and a fresh
last-active timestamp. -/
def Plugin.new (p : Plugin) (config : Json) (now : Nat) : PInstance :=
  { name := p.name, config := config, phases := p.phases,
    start_time := now, expire_ts := now }

/-- The coordinator state: plugin registry, instance table with its id
counter, and continuation (event) table with its id counter.  The value
stored in the event table is the channel identifier of the event's duplex
channel (one fresh channel per event, identified here by the event id that
created it). -/
structure ServerState where
  plugins : List (String × Plugin)
  instances : List (Nat × PInstance)
  instance_id : Nat
  events : List (Nat × Nat)
  event_id : Nat

/-- The locked_by(lock_name) decorator: acquires the named lock, runs the
body, and releases the lock on both the normal and the raising path. -/
def locked_by {α : Type} (lk : String)
    (body : ServerState → ServerState × List Action × Ret α) :
    ServerState → ServerState × List Action × Ret α :=
  fun st =>
    let r := body st
    (r.1, Action.acquire lk :: r.2.1 ++ [Action.release lk], r.2.2)

/-- The argument dict of start_instance: {Name, Config(serialized)}. -/
structure StartCfg where
  Name : String
  Config : String

/-- Return shape of start_instance. -/
structure StartRes where
  Name : String
  Id : Nat
  Config : Json
  StartTime : Nat

/-- Return shape of instance_status. -/
structure StatusRes where
  Name : String
  Id : Nat
  Config : Json
  StartTime : Nat

/-- Return shape of close_instance. -/
structure CloseRes where
  Name : Json
  Id : Nat
  Config : Json

/-- Return shape of get_plugin_info. -/
structure InfoRes where
  Name : String
  Phases : List String
  Priority : Int
  Schema : Json

/-- The argument dict of handle_event: {InstanceId, EventName}. -/
structure EventIn where
  InstanceId : Nat
  EventName : String

/-- Return shape of handle_event and of step / step_error. -/
structure EvRes where
  Data : String
  EventId : Nat
  deriving Repr, DecidableEq

/-- The argument dict of step / step_error: {EventId, Data?}. -/
structure StepData where
  EventId : Nat
  Data : Option String
  deriving Repr, DecidableEq

/-- instance_status(iid): read-only lookup, (None, message) when absent. -/
def instance_status (st : ServerState) (iid : Nat) : Ret StatusRes :=
  match lookupA st.instances iid with
  | none =>
    match pyFormatS FMT_INSTANCE_NOT_FOUND (toString iid) with
    | .ok m => .ok (none, some m)
    | .error e => .error e
  | some ins =>
    .ok (some { Name := ins.name, Id := iid, Config := ins.config,
                StartTime := ins.start_time }, none)

/-- get_plugin_info(name): raises on an unknown name (the format string
" not initizlied" has no %s specifier, so the raise itself fails with
TypeError); otherwise returns the info projection with the declared phases,
priority, and the schema wrapped in the record envelope. -/
def get_plugin_info (st : ServerState) (name : String) : Ret InfoRes :=
  match lookupA st.plugins name with
  | none => .error (raiseFmt FMT_NOT_INITIZLIED name)
  | some plugin =>
    .ok (some {
      Name := name,
      Phases := plugin.phases,
      Priority := plugin.priority,
      Schema := Json.obj [
        ("name", Json.str name),
        ("fields", Json.arr [Json.obj [
          ("config", Json.obj [
            ("type", Json.str ("record")),
            ("fields", Json.arr plugin.schema)])]])] }, none)

/-- Body of start_instance, run under i_lock: registry lookup (the raise on
an unknown name fails with TypeError, its format string has no %s), decode
of the serialized config via the external json.loads (raises the JSON decode
error on a malformed payload), instantiation hook, id allocation, insertion. -/
def start_instance_body (decode : String → Option Json) (now : Nat)
    (cfg : StartCfg) (st : ServerState) : ServerState × List Action × Ret StartRes :=
  match lookupA st.plugins cfg.Name with
  | none => (st, [], .error (raiseFmt FMT_NOT_INITIZLIED cfg.Name))
  | some plugin =>
    match decode cfg.Config with
    | none => (st, [], .error .jsonDecodeError)
    | some config =>
      let iid := st.instance_id
      ({ st with instances := st.instances ++ [(iid, plugin.new config now)],
                 instance_id := iid + 1 },
       [],
       .ok (some { Name := cfg.Name, Id := iid, Config := config,
                   StartTime := now }, none))

/-- start_instance = locked_by("i_lock") applied to its body. -/
def start_instance (decode : String → Option Json) (now : Nat)
    (cfg : StartCfg) : ServerState → ServerState × List Action × Ret StartRes :=
  locked_by I_LOCK (start_instance_body decode now cfg)

/-- Body of close_instance, run under i_lock: (None, message) when absent;
otherwise runs the close hook, deletes the table entry, then builds the
return dict through subscript access on the instance, which raises
TypeError after the deletion already happened. -/
def close_instance_body (iid : Nat) (st : ServerState) :
    ServerState × List Action × Ret CloseRes :=
  match lookupA st.instances iid with
  | none =>
    match pyFormatS FMT_INSTANCE_NOT_FOUND (toString iid) with
    | .ok m => (st, [], .ok (none, some m))
    | .error e => (st, [], .error e)
  | some ins =>
    let st1 := { st with instances := eraseA st.instances iid }
    match ins.getItem ("name") with
    | .error e => (st1, [Action.closeCb iid, Action.delInstance iid], .error e)
    | .ok nm =>
      match ins.getItem ("config") with
      | .error e => (st1, [Action.closeCb iid, Action.delInstance iid], .error e)
      | .ok c =>
        (st1, [Action.closeCb iid, Action.delInstance iid],
         .ok (some { Name := nm, Id := iid, Config := c }, none))

/-- close_instance = locked_by("i_lock") applied to its body. -/
def close_instance (iid : Nat) :
    ServerState → ServerState × List Action × Ret CloseRes :=
  locked_by I_LOCK (close_instance_body iid)

/-- Body of handle_event, run under e_lock: instance lookup, first
last-active refresh, event id allocation, channel creation and table insert,
worker spawn bound to getattr(cls, phase) (raises AttributeError when the
phase is not a handler of the class, after the insert already happened),
blocking receive of the worker's first message, second last-active refresh.
The two worker backends differ only in channel/pool mechanics, not in any
observable modelled here.  The times of the two refreshes are n1 and n2 and
the worker's first outward message is the firstMsg argument. -/
def handle_event_body (e : EventIn) (n1 n2 : Nat) (firstMsg : String)
    (st : ServerState) : ServerState × List Action × Ret EvRes :=
  match lookupA st.instances e.InstanceId with
  | none => (st, [], .error (raiseFmt FMT_INSTANCE_ID_NOT_FOUND (toString e.InstanceId)))
  | some ins =>
    let st1 := { st with
      instances := updateA st.instances e.InstanceId (ins.reset_expire_ts n1) }
    let eid := st1.event_id
    let st2 := { st1 with event_id := eid + 1 }
    let st3 := { st2 with events := st2.events ++ [(eid, eid)] }
    if e.EventName ∈ ins.phases then
      let st4 := { st3 with
        instances := updateA st3.instances e.InstanceId (ins.reset_expire_ts n2) }
      (st4, [Action.spawnWorker eid, Action.chanGet],
       .ok (some { Data := firstMsg, EventId := eid }, none))
    else
      (st3, [], .error (.attributeError e.EventName))

/-- handle_event = locked_by("e_lock") applied to its body. -/
def handle_event (e : EventIn) (n1 n2 : Nat) (firstMsg : String) :
    ServerState → ServerState × List Action × Ret EvRes :=
  locked_by E_LOCK (handle_event_body e n1 n2 firstMsg)

/-- Resume core _step(data, is_error): no lock; event lookup, send of the two-slot
result tuple into the channel, blocking receive of the worker's next
message (the workerMsg argument), retirement of the continuation when that
message is the terminal sentinel. -/
def _step (d : StepData) (is_error : Bool) (workerMsg : String)
    (st : ServerState) : ServerState × List Action × Ret EvRes :=
  match lookupA st.events d.EventId with
  | none => (st, [], .error (raiseFmt FMT_EVENT_ID_NOT_FOUND (toString d.EventId)))
  | some _ch =>
    let payload : Option String × Option String :=
      if is_error then (none, d.Data) else (d.Data, none)
    if workerMsg = MSG_RET then
      ({ st with events := eraseA st.events d.EventId },
       [Action.chanPut payload, Action.chanGet],
       .ok (some { Data := workerMsg, EventId := d.EventId }, none))
    else
      (st, [Action.chanPut payload, Action.chanGet],
       .ok (some { Data := workerMsg, EventId := d.EventId }, none))

/-- step(data) = _step(data, False). -/
def step (d : StepData) (workerMsg : String) :
    ServerState → ServerState × List Action × Ret EvRes :=
  _step d false workerMsg

/-- step_error(data) = _step(data, True). -/
def step_error (d : StepData) (workerMsg : String) :
    ServerState → ServerState × List Action × Ret EvRes :=
  _step d true workerMsg

/-- setattr(PluginServer, 'step_service', PluginServer.step). -/
def step_service := step

/-- setattr(PluginServer, 'step_consumer', PluginServer.step). -/
def step_consumer := step

/-- setattr(PluginServer, 'step_route', PluginServer.step). -/
def step_route := step

/-- setattr(PluginServer, 'step_plugin', PluginServer.step). -/
def step_plugin := step

/-- setattr(PluginServer, 'step_credential', PluginServer.step). -/
def step_credential := step

/-- setattr(PluginServer, 'step_memory_stats', PluginServer.step). -/
def step_memory_stats := step

/-- setattr(PluginServer, 'step_multi_map', PluginServer.step). -/
def step_multi_map := step

/-- One pass of the _clear_expired_plugins loop body: under i_lock, every
instance whose idle time exceeds the ttl is deleted from the instance table;
the close hook is not invoked. -/
def _clear_expired_plugins_once (now ttl : Nat) (st : ServerState) :
    ServerState × List Action :=
  ({ st with instances :=
      st.instances.filter (fun p => !(p.2.is_expired now ttl)) },
   Action.acquire I_LOCK ::
     ((st.instances.filter (fun p => p.2.is_expired now ttl)).map
       (fun p => Action.delInstance p.1)) ++ [Action.release I_LOCK])

/-- One coordinator operation, with the external inputs each needs: clock
readings, the raw RPC argument, and the message the worker sends on the
channel (the worker runs outside the coordinator). -/
inductive Op where
  | start (cfg : StartCfg) (now : Nat) : Op
  | close (iid : Nat) : Op
  | status (iid : Nat) : Op
  | info (name : String) : Op
  | ev (e : EventIn) (n1 n2 : Nat) (firstMsg : String) : Op
  | stp (d : StepData) (isErr : Bool) (workerMsg : String) : Op
  | sweep (now ttl : Nat) : Op

/-- The ids an operation returned: the Id of a successful start_instance and
the EventId of a successful handle_event. -/
structure OpOut where
  startedId : Option Nat
  beganEid : Option Nat

/-- Run one operation against the state, keeping the returned ids. -/
def applyOp (decode : String → Option Json) (st : ServerState) :
    Op → ServerState × OpOut
  | .start cfg now =>
    let r := start_instance decode now cfg st
    (r.1, { startedId := match r.2.2 with
                         | .ok (some res, _) => some res.Id
                         | _ => none,
            beganEid := none })
  | .close iid => ((close_instance iid st).1, { startedId := none, beganEid := none })
  | .status _ => (st, { startedId := none, beganEid := none })
  | .info _ => (st, { startedId := none, beganEid := none })
  | .ev e n1 n2 firstMsg =>
    let r := handle_event e n1 n2 firstMsg st
    (r.1, { startedId := none,
            beganEid := match r.2.2 with
                        | .ok (some res, _) => some res.EventId
                        | _ => none })
  | .stp d isErr workerMsg =>
    ((_step d isErr workerMsg st).1, { startedId := none, beganEid := none })
  | .sweep now ttl =>
    ((_clear_expired_plugins_once now ttl st).1, { startedId := none, beganEid := none })

/-- Run a sequence of operations, collecting each operation's returned ids. -/
def runOuts (decode : String → Option Json) (st : ServerState) :
    List Op → List OpOut
  | [] => []
  | op :: ops =>
    (applyOp decode st op).2 :: runOuts decode (applyOp decode st op).1 ops

/-- The operation is a step / step_error on this event id whose worker
message is the terminal sentinel. -/
def isTerminalStepOn (eid : Nat) : Op → Bool
  | .stp d _ workerMsg => d.EventId == eid && workerMsg == MSG_RET
  | _ => false

/-- The event table contains this event id. -/
def memE (st : ServerState) (eid : Nat) : Bool :=
  (lookupA st.events eid).isSome

/-- A channel receive or send. -/
def isChanOp : Action → Bool
  | .chanGet => true
  | .chanPut _ => true
  | _ => false

/-- The trace performs some channel receive or send. -/
def hasChanOp (tr : List Action) : Bool :=
  tr.any isChanOp

/-- Scanning the trace with the multiset of held locks: true when some
channel receive or send happens while at least one lock is held. -/
def chanOpWhileLocked : List Action → List String → Bool
  | [], _ => false
  | .acquire lk :: rest, held => chanOpWhileLocked rest (lk :: held)
  | .release lk :: rest, held => chanOpWhileLocked rest (held.erase lk)
  | .chanGet :: rest, held => !held.isEmpty || chanOpWhileLocked rest held
  | .chanPut _ :: rest, held => !held.isEmpty || chanOpWhileLocked rest held
  | _ :: rest, held => chanOpWhileLocked rest held

/-- The outcome is a normal (None, message) not-found return pair. -/
def isNotFoundPair {α : Type} : Ret α → Bool
  | .ok (none, some _) => true
  | _ => false

/-- Sample registered plugin used by the concrete witnesses. -/
def demoPlugin : Plugin :=
  { name := "demo", phases := ["access"], priority := 10,
    schema := [Json.obj [("limit", Json.num 10)]] }

/-- Sample live instance of demoPlugin, created at time 5. -/
def demoIns : PInstance :=
  demoPlugin.new (Json.obj [("limit", Json.num 10)]) 5

/-- Sample state: demoPlugin registered, instance 0 live, event 0 in flight. -/
def demoSt : ServerState :=
  { plugins := [("demo", demoPlugin)],
    instances := [(0, demoIns)],
    instance_id := 1,
    events := [(0, 0)],
    event_id := 1 }

/-- Sample state with an empty registry and empty tables. -/
def emptySt : ServerState :=
  { plugins := [], instances := [], instance_id := 0, events := [], event_id := 0 }

/-- Sample decoder for the external json.loads: accepts only the literal
empty object payload. -/
def demoDecode : String → Option Json :=
  fun s => if s = "\x7b\x7d" then some (Json.obj []) else none

/-- The record envelope get_plugin_info is expected to wrap around
demoPlugin's schema, with the schema entries appearing verbatim. -/
def demoSchemaWrapped : Json :=
  Json.obj [("name", Json.str ("demo")),
    ("fields", Json.arr [Json.obj [("config", Json.obj [
      ("type", Json.str ("record")),
      ("fields", Json.arr demoPlugin.schema)])]])]

theorem lookupA_eraseA_self {κ α : Type} [DecidableEq κ] (l : List (κ × α)) (k : κ) :
    lookupA (eraseA l k) k = none := by
  induction l with
  | nil => rfl
  | cons hd t ih =>
    obtain ⟨k1, v1⟩ := hd
    by_cases hk : k1 = k
    · simpa [eraseA, hk] using ih
    · simpa [eraseA, lookupA, hk] using ih

theorem lookupA_eraseA_ne {κ α : Type} [DecidableEq κ] (l : List (κ × α)) (j k : κ)
    (h : j ≠ k) : lookupA (eraseA l j) k = lookupA l k := by
  induction l with
  | nil => rfl
  | cons hd t ih =>
    obtain ⟨k1, v1⟩ := hd
    by_cases hj : k1 = j
    · subst hj
      have hk : k1 ≠ k := h
      simp [eraseA, lookupA, hk, ih]
    · by_cases hk : k1 = k
      · subst hk
        simp [eraseA, lookupA, hj]
      · simp [eraseA, lookupA, hj, hk, ih]

theorem lookupA_append_left {κ α : Type} [DecidableEq κ] (l m : List (κ × α)) (k : κ)
    (h : (lookupA l k).isSome = true) : lookupA (l ++ m) k = lookupA l k := by
  induction l with
  | nil => simp [lookupA] at h
  | cons hd t ih =>
    obtain ⟨k1, v1⟩ := hd
    by_cases hk : k1 = k
    · simp [lookupA, hk]
    · simp only [List.cons_append]
      simp only [lookupA, hk, if_false] at *
      exact ih h

theorem lookupA_append_self {κ α : Type} [DecidableEq κ] (l : List (κ × α)) (k : κ) (v : α) :
    (lookupA (l ++ [(k, v)]) k).isSome = true := by
  induction l with
  | nil => simp [lookupA]
  | cons hd t ih =>
    obtain ⟨k1, v1⟩ := hd
    by_cases hk : k1 = k <;> simp [lookupA, hk, ih]

theorem lookupA_updateA_self {κ α : Type} [DecidableEq κ] (l : List (κ × α)) (k : κ) (w : α)
    (h : (lookupA l k).isSome = true) : lookupA (updateA l k w) k = some w := by
  induction l with
  | nil => simp [lookupA] at h
  | cons hd t ih =>
    obtain ⟨k1, v1⟩ := hd
    by_cases hk : k1 = k
    · simp [updateA, lookupA, hk]
    · simp only [lookupA, hk, if_false] at h
      simp [updateA, lookupA, hk, ih h]

theorem lookupA_updateA_isSome {κ α : Type} [DecidableEq κ] (l : List (κ × α)) (k : κ) (w : α)
    (h : (lookupA l k).isSome = true) : (lookupA (updateA l k w) k).isSome = true := by
  simp [lookupA_updateA_self l k w h]

theorem lookupA_eq_none_of_not_mem {κ α : Type} [DecidableEq κ] (l : List (κ × α)) (k : κ)
    (h : k ∉ l.map Prod.fst) : lookupA l k = none := by
  induction l with
  | nil => rfl
  | cons hd t ih =>
    obtain ⟨k1, v1⟩ := hd
    simp only [List.map_cons, List.mem_cons] at h
    push_neg at h
    simp [lookupA, Ne.symm h.1, ih h.2]

theorem lookupA_filter_none {κ α : Type} [DecidableEq κ] (l : List (κ × α)) (k : κ) (v : α)
    (pred : α → Bool) (hnd : (l.map Prod.fst).Nodup) (hl : lookupA l k = some v)
    (hp : pred v = true) :
    lookupA (l.filter (fun p => !pred p.2)) k = none := by
  induction l with
  | nil => simp [lookupA] at hl
  | cons hd t ih =>
    obtain ⟨k1, v1⟩ := hd
    simp only [List.map_cons, List.nodup_cons] at hnd
    by_cases hk : k1 = k
    · subst hk
      have hv : v1 = v := by simpa [lookupA] using hl
      subst hv
      simp only [List.filter_cons, hp, Bool.not_true, if_neg]
      simp only [Bool.false_eq_true, if_false]
      apply lookupA_eq_none_of_not_mem
      intro hmem
      rcases List.mem_map.mp hmem with ⟨p, hpmem, hpk⟩
      exact hnd.1 (hpk ▸ List.mem_map_of_mem Prod.fst (List.mem_of_mem_filter hpmem))
    · simp only [lookupA, hk, if_false] at hl
      by_cases hp1 : pred v1 = true
      · simp only [List.filter_cons, hp1, Bool.not_true, Bool.false_eq_true, if_false]
        exact ih hnd.2 hl
      · simp only [Bool.not_eq_true] at hp1
        simp only [List.filter_cons, hp1, Bool.not_false, if_true, lookupA, hk, if_false]
        exact ih hnd.2 hl

theorem fmt_instance_not_found (s : String) :
    pyFormatS FMT_INSTANCE_NOT_FOUND s = .ok ("instance #" ++ s ++ " not found") := rfl

theorem fmt_not_initizlied (s : String) :
    raiseFmt FMT_NOT_INITIZLIED s =
      .typeError TE_NOT_ALL_ARGS := rfl

theorem applyOp_instance_id_mono (decode : String → Option Json) (st : ServerState)
    (op : Op) : st.instance_id ≤ (applyOp decode st op).1.instance_id := by
  cases op <;>
    simp only [applyOp, start_instance, close_instance, handle_event, locked_by,
      start_instance_body, close_instance_body, handle_event_body, _step,
      _clear_expired_plugins_once] <;>
    (repeat' split) <;> simp

theorem applyOp_event_id_mono (decode : String → Option Json) (st : ServerState)
    (op : Op) : st.event_id ≤ (applyOp decode st op).1.event_id := by
  cases op <;>
    simp only [applyOp, start_instance, close_instance, handle_event, locked_by,
      start_instance_body, close_instance_body, handle_event_body, _step,
      _clear_expired_plugins_once] <;>
    (repeat' split) <;> simp

theorem start_instance_ok (decode : String → Option Json) (now : Nat) (cfg : StartCfg)
    (st : ServerState) (res : StartRes) (err : Option String)
    (h : (start_instance decode now cfg st).2.2 = .ok (some res, err)) :
    res.Id = st.instance_id ∧
    (start_instance decode now cfg st).1.instance_id = st.instance_id + 1 := by
  simp only [start_instance, locked_by, start_instance_body] at h ⊢
  cases hl : lookupA st.plugins cfg.Name with
  | none => simp only [hl] at h; simp at h
  | some plugin =>
    simp only [hl] at h ⊢
    cases hd : decode cfg.Config with
    | none => simp only [hd] at h; simp at h
    | some config =>
      simp only [hd] at h ⊢
      simp only [Except.ok.injEq, Prod.mk.injEq, Option.some.injEq] at h
      refine ⟨?_, by simp⟩
      rw [← h.1]

theorem handle_event_success (e : EventIn) (n1 n2 : Nat) (msg : String)
    (st : ServerState) (res : EvRes) (err : Option String)
    (h : (handle_event e n1 n2 msg st).2.2 = .ok (some res, err)) :
    ∃ ins, lookupA st.instances e.InstanceId = some ins ∧
      e.EventName ∈ ins.phases ∧
      res = { Data := msg, EventId := st.event_id } ∧
      (handle_event e n1 n2 msg st).1 =
        { st with
          instances := updateA (updateA st.instances e.InstanceId
              (ins.reset_expire_ts n1)) e.InstanceId (ins.reset_expire_ts n2),
          events := st.events ++ [(st.event_id, st.event_id)],
          event_id := st.event_id + 1 } := by
  simp only [handle_event, locked_by, handle_event_body] at h ⊢
  cases hl : lookupA st.instances e.InstanceId with
  | none => simp only [hl] at h; simp at h
  | some ins =>
    simp only [hl] at h ⊢
    by_cases hph : e.EventName ∈ ins.phases
    · simp only [if_pos hph] at h ⊢
      simp only [Except.ok.injEq, Prod.mk.injEq, Option.some.injEq] at h
      exact ⟨ins, rfl, hph, h.1.symm, rfl⟩
    · simp only [if_neg hph] at h
      simp at h

theorem applyOp_startedId (decode : String → Option Json) (st : ServerState) (op : Op)
    (a : Nat) (h : (applyOp decode st op).2.startedId = some a) :
    st.instance_id = a ∧ (applyOp decode st op).1.instance_id = a + 1 := by
  cases op with
  | start cfg now =>
    simp only [applyOp] at h ⊢
    split at h
    · next res snd heq =>
      simp only [Option.some.injEq] at h
      rcases start_instance_ok decode now cfg st res snd heq with ⟨h1, h2⟩
      omega
    · simp at h
  | close iid => simp [applyOp] at h
  | status iid => simp [applyOp] at h
  | info name => simp [applyOp] at h
  | ev e n1 n2 msg => simp [applyOp] at h
  | stp d isErr msg => simp [applyOp] at h
  | sweep now ttl => simp [applyOp] at h

theorem applyOp_beganEid (decode : String → Option Json) (st : ServerState) (op : Op)
    (a : Nat) (h : (applyOp decode st op).2.beganEid = some a) :
    st.event_id = a ∧ (applyOp decode st op).1.event_id = a + 1 := by
  cases op with
  | ev e n1 n2 msg =>
    simp only [applyOp] at h ⊢
    split at h
    · next res snd heq =>
      simp only [Option.some.injEq] at h
      rcases handle_event_success e n1 n2 msg st res snd heq with ⟨ins, _, _, hres, hst⟩
      rw [hst]
      subst hres
      simp at h
      simp [← h]
    · simp at h
  | start cfg now => simp [applyOp] at h
  | close iid => simp [applyOp] at h
  | status iid => simp [applyOp] at h
  | info name => simp [applyOp] at h
  | stp d isErr msg => simp [applyOp] at h
  | sweep now ttl => simp [applyOp] at h

theorem runOuts_started_lb (decode : String → Option Json) : ∀ (ops : List Op)
    (st : ServerState) (a : Nat),
    a ∈ (runOuts decode st ops).filterMap (fun o => o.startedId) →
    st.instance_id ≤ a := by
  intro ops
  induction ops with
  | nil => intro st a h; simp [runOuts] at h
  | cons op ops ih =>
    intro st a h
    cases hcase : (applyOp decode st op).2.startedId with
    | none =>
      simp only [runOuts, List.filterMap_cons, hcase] at h
      have h1 := ih _ a h
      have h2 := applyOp_instance_id_mono decode st op
      omega
    | some b =>
      simp only [runOuts, List.filterMap_cons, hcase, List.mem_cons] at h
      rcases applyOp_startedId decode st op b hcase with ⟨hb1, hb2⟩
      rcases h with h | h
      · omega
      · have h1 := ih _ a h
        omega

theorem runOuts_began_lb (decode : String → Option Json) : ∀ (ops : List Op)
    (st : ServerState) (a : Nat),
    a ∈ (runOuts decode st ops).filterMap (fun o => o.beganEid) →
    st.event_id ≤ a := by
  intro ops
  induction ops with
  | nil => intro st a h; simp [runOuts] at h
  | cons op ops ih =>
    intro st a h
    cases hcase : (applyOp decode st op).2.beganEid with
    | none =>
      simp only [runOuts, List.filterMap_cons, hcase] at h
      have h1 := ih _ a h
      have h2 := applyOp_event_id_mono decode st op
      omega
    | some b =>
      simp only [runOuts, List.filterMap_cons, hcase, List.mem_cons] at h
      rcases applyOp_beganEid decode st op b hcase with ⟨hb1, hb2⟩
      rcases h with h | h
      · omega
      · have h1 := ih _ a h
        omega

theorem runOuts_started_pairwise (decode : String → Option Json) : ∀ (ops : List Op)
    (st : ServerState),
    ((runOuts decode st ops).filterMap (fun o => o.startedId)).Pairwise (· < ·) := by
  intro ops
  induction ops with
  | nil => intro st; simp [runOuts]
  | cons op ops ih =>
    intro st
    cases hcase : (applyOp decode st op).2.startedId with
    | none =>
      simp only [runOuts, List.filterMap_cons, hcase]
      exact ih _
    | some b =>
      simp only [runOuts, List.filterMap_cons, hcase]
      refine List.pairwise_cons.mpr ⟨?_, ih _⟩
      intro a ha
      rcases applyOp_startedId decode st op b hcase with ⟨hb1, hb2⟩
      have h1 := runOuts_started_lb decode ops _ a ha
      omega

theorem runOuts_began_pairwise (decode : String → Option Json) : ∀ (ops : List Op)
    (st : ServerState),
    ((runOuts decode st ops).filterMap (fun o => o.beganEid)).Pairwise (· < ·) := by
  intro ops
  induction ops with
  | nil => intro st; simp [runOuts]
  | cons op ops ih =>
    intro st
    cases hcase : (applyOp decode st op).2.beganEid with
    | none =>
      simp only [runOuts, List.filterMap_cons, hcase]
      exact ih _
    | some b =>
      simp only [runOuts, List.filterMap_cons, hcase]
      refine List.pairwise_cons.mpr ⟨?_, ih _⟩
      intro a ha
      rcases applyOp_beganEid decode st op b hcase with ⟨hb1, hb2⟩
      have h1 := runOuts_began_lb decode ops _ a ha
      omega

theorem _step_instances (d : StepData) (isErr : Bool) (msg : String) (st : ServerState) :
    (_step d isErr msg st).1.instances = st.instances := by
  simp only [_step]
  (repeat' split) <;> simp

theorem _step_terminal_removes (d : StepData) (isErr : Bool) (st : ServerState)
    (hmem : memE st d.EventId = true) :
    memE (_step d isErr MSG_RET st).1 d.EventId = false := by
  simp only [memE] at hmem
  simp only [_step]
  cases hl : lookupA st.events d.EventId with
  | none => rw [hl] at hmem; simp at hmem
  | some ch =>
    simp only [hl, if_pos rfl, memE]
    simp [lookupA_eraseA_self]

theorem handle_event_inserts (e : EventIn) (n1 n2 : Nat) (msg : String)
    (st : ServerState) (res : EvRes) (err : Option String)
    (h : (handle_event e n1 n2 msg st).2.2 = .ok (some res, err)) :
    memE (handle_event e n1 n2 msg st).1 res.EventId = true := by
  rcases handle_event_success e n1 n2 msg st res err h with ⟨ins, _, _, hres, hst⟩
  rw [hst, hres]
  simp only [memE]
  exact lookupA_append_self st.events st.event_id st.event_id

theorem applyOp_preserves_memE (decode : String → Option Json) (st : ServerState)
    (eid : Nat) (op : Op) (hmem : memE st eid = true)
    (hnt : isTerminalStepOn eid op = false) :
    memE (applyOp decode st op).1 eid = true := by
  cases op with
  | start cfg now =>
    simp only [applyOp, start_instance, locked_by, start_instance_body]
    (repeat' split) <;> simpa [memE] using hmem
  | close iid =>
    simp only [applyOp, close_instance, locked_by, close_instance_body]
    (repeat' split) <;> simpa [memE] using hmem
  | status iid => simpa [applyOp] using hmem
  | info name => simpa [applyOp] using hmem
  | ev e n1 n2 msg =>
    simp only [memE] at hmem ⊢
    simp only [applyOp, handle_event, locked_by, handle_event_body]
    (repeat' split) <;> simp only [] <;>
      first
        | exact hmem
        | (rw [lookupA_append_left _ _ _ hmem]; exact hmem)
  | stp d isErr msg =>
    simp only [isTerminalStepOn] at hnt
    simp only [applyOp, _step]
    cases hl : lookupA st.events d.EventId with
    | none => simpa [memE] using hmem
    | some ch =>
      simp only [hl]
      by_cases hm : msg = MSG_RET
      · have hne : d.EventId ≠ eid := by
          intro hcontra
          rw [hcontra, hm] at hnt
          simp at hnt
        simp only [if_pos hm, memE]
        rw [lookupA_eraseA_ne _ _ _ hne]
        exact hmem
      · simpa [if_neg hm, memE] using hmem
  | sweep now ttl => simpa [applyOp, _clear_expired_plugins_once, memE] using hmem

theorem close_instance_removes (iid : Nat) (st : ServerState) :
    lookupA (close_instance iid st).1.instances iid = none := by
  simp only [close_instance, locked_by, close_instance_body]
  cases hl : lookupA st.instances iid with
  | none => simpa using hl
  | some ins =>
    simp only [hl, PInstance.getItem]
    exact lookupA_eraseA_self st.instances iid

theorem instance_status_not_found (st : ServerState) (iid : Nat)
    (h : lookupA st.instances iid = none) :
    isNotFoundPair (instance_status st iid) = true := by
  simp [instance_status, h, fmt_instance_not_found, isNotFoundPair]

theorem start_instance_no_chanop (decode : String → Option Json) (now : Nat)
    (cfg : StartCfg) (st : ServerState) :
    hasChanOp (start_instance decode now cfg st).2.1 = false := by
  simp only [start_instance, locked_by, start_instance_body]
  (repeat' split) <;> simp [hasChanOp, isChanOp]

theorem close_instance_no_chanop (iid : Nat) (st : ServerState) :
    hasChanOp (close_instance iid st).2.1 = false := by
  simp only [close_instance, locked_by, close_instance_body]
  (repeat' split) <;> simp [hasChanOp, isChanOp]

theorem sweep_no_chanop (now ttl : Nat) (st : ServerState) :
    hasChanOp (_clear_expired_plugins_once now ttl st).2 = false := by
  simp only [_clear_expired_plugins_once, hasChanOp]
  simp [isChanOp, List.any_map, Function.comp]
  intro a i ins _ _ h
  subst h
  rfl

theorem handle_event_chanop_locked (e : EventIn) (n1 n2 : Nat) (msg : String)
    (st : ServerState) (ins : PInstance)
    (hl : lookupA st.instances e.InstanceId = some ins)
    (hph : e.EventName ∈ ins.phases) :
    chanOpWhileLocked (handle_event e n1 n2 msg st).2.1 [] = true := by
  simp only [handle_event, locked_by, handle_event_body, hl, if_pos hph]
  simp [chanOpWhileLocked]

theorem _step_no_acquire (d : StepData) (isErr : Bool) (msg : String)
    (st : ServerState) (lk : String) :
    Action.acquire lk ∉ (_step d isErr msg st).2.1 := by
  simp only [_step]
  (repeat' split) <;> simp

theorem close_instance_trace (iid : Nat) (st : ServerState) (ins : PInstance)
    (hl : lookupA st.instances iid = some ins) :
    (close_instance iid st).2.1 =
      [Action.acquire I_LOCK, Action.closeCb iid, Action.delInstance iid,
       Action.release I_LOCK] := by
  simp [close_instance, locked_by, close_instance_body, hl, PInstance.getItem]

theorem sweep_no_closeCb (now ttl : Nat) (st : ServerState) (iid : Nat) :
    Action.closeCb iid ∉ (_clear_expired_plugins_once now ttl st).2 := by
  simp only [_clear_expired_plugins_once]
  intro hmem
  simp only [List.mem_cons, List.mem_append, List.mem_map, List.mem_singleton] at hmem
  rcases hmem with h | ⟨p, _, h⟩ | h <;> simp at h

theorem sweep_removes_expired (now ttl : Nat) (st : ServerState) (iid : Nat)
    (ins : PInstance) (hnd : (st.instances.map Prod.fst).Nodup)
    (hl : lookupA st.instances iid = some ins)
    (hexp : ins.is_expired now ttl = true) :
    lookupA (_clear_expired_plugins_once now ttl st).1.instances iid = none := by
  simp only [_clear_expired_plugins_once]
  exact lookupA_filter_none st.instances iid ins (fun i => i.is_expired now ttl) hnd hl hexp

theorem handle_event_refreshes (e : EventIn) (n1 n2 : Nat) (msg : String)
    (st : ServerState) (res : EvRes) (err : Option String)
    (h : (handle_event e n1 n2 msg st).2.2 = .ok (some res, err)) :
    ∃ ins, lookupA st.instances e.InstanceId = some ins ∧
      lookupA (handle_event e n1 n2 msg st).1.instances e.InstanceId =
        some (ins.reset_expire_ts n2) := by
  rcases handle_event_success e n1 n2 msg st res err h with ⟨ins, hl, _, _, hst⟩
  refine ⟨ins, hl, ?_⟩
  rw [hst]
  have h1 : (lookupA st.instances e.InstanceId).isSome = true := by simp [hl]
  exact lookupA_updateA_self _ _ _ (lookupA_updateA_isSome _ _ _ h1)

/-- C1: the claim says close_instance on a present id invokes the close
hook, removes the entry, and returns a descriptor built from fields captured
before removal.  On the concrete table holding instance 0, the code runs the
close hook and removes the entry, but then raises TypeError from the
subscript access used to build the descriptor, so no descriptor is
returned. -/
theorem close_instance_subscript_defect :
    (close_instance 0 demoSt).2.2 = .error (.typeError TE_NOT_SUBSCRIPTABLE) ∧
    lookupA (close_instance 0 demoSt).1.instances 0 = none ∧
    (close_instance 0 demoSt).2.1 =
      [Action.acquire I_LOCK, Action.closeCb 0, Action.delInstance 0,
       Action.release I_LOCK] :=
  ⟨rfl, rfl, rfl⟩

/-- C2 counterexample: a successful step (resume) on the concrete state
leaves the owning instance's last-active timestamp at its old value 5
instead of refreshing it, contradicting the claim that every resume
refreshes the timestamp. -/
theorem step_does_not_refresh_counterexample :
    (step ⟨0, none⟩ "call2" demoSt).2.2 =
      .ok (some { Data := "call2", EventId := 0 }, none) ∧
    lookupA (step ⟨0, none⟩ "call2" demoSt).1.instances 0 = some demoIns ∧
    demoIns.expire_ts = 5 :=
  ⟨rfl, rfl, rfl⟩

/-- C2 amended: handle_event refreshes the instance's last-active timestamp
at begin and again after the worker's first message (the final value is the
second refresh time n2), but step / step_error leave the whole instance
table, and hence every last-active timestamp, unchanged. -/
theorem refresh_only_in_handle_event :
    (∀ e n1 n2 msg st res err,
       (handle_event e n1 n2 msg st).2.2 = Except.ok (some res, err) →
       ∃ ins, lookupA st.instances e.InstanceId = some ins ∧
         lookupA (handle_event e n1 n2 msg st).1.instances e.InstanceId =
           some (ins.reset_expire_ts n2)) ∧
    (∀ d isErr msg st, (_step d isErr msg st).1.instances = st.instances) :=
  ⟨fun e n1 n2 msg st res err h => handle_event_refreshes e n1 n2 msg st res err h,
   fun d isErr msg st => _step_instances d isErr msg st⟩

/-- C2 amended, witness at concrete inputs. -/
theorem refresh_only_in_handle_event_witness :
    (∃ ins, lookupA demoSt.instances 0 = some ins ∧
       lookupA (handle_event ⟨0, "access"⟩ 10 11 "m" demoSt).1.instances 0 =
         some (ins.reset_expire_ts 11)) ∧
    (step ⟨0, none⟩ "next" demoSt).1.instances = demoSt.instances :=
  ⟨refresh_only_in_handle_event.1 ⟨0, "access"⟩ 10 11 "m" demoSt ⟨"m", 1⟩ none rfl,
   refresh_only_in_handle_event.2 ⟨0, none⟩ false ("next") demoSt⟩

/-- C3 counterexample: on the concrete state, handle_event performs its
blocking channel receive while holding the e_lock, contradicting the claim
that no lock is ever held while blocked on a channel operation. -/
theorem e_lock_held_across_channel_get :
    chanOpWhileLocked (handle_event ⟨0, "access"⟩ 10 11 "m" demoSt).2.1 [] = true := by
  decide

/-- C3 amended: the i_lock is held only across table read/modify/write
(start_instance, close_instance and a sweep pass perform no channel
operation at all), but handle_event holds the e_lock across its blocking
channel receive, and step / step_error touch the continuation table with no
lock whatsoever. -/
theorem lock_discipline_amended :
    (∀ decode now cfg st, hasChanOp (start_instance decode now cfg st).2.1 = false) ∧
    (∀ iid st, hasChanOp (close_instance iid st).2.1 = false) ∧
    (∀ now ttl st, hasChanOp (_clear_expired_plugins_once now ttl st).2 = false) ∧
    (∀ e n1 n2 msg st ins, lookupA st.instances e.InstanceId = some ins →
       e.EventName ∈ ins.phases →
       chanOpWhileLocked (handle_event e n1 n2 msg st).2.1 [] = true) ∧
    (∀ d isErr msg st lk, Action.acquire lk ∉ (_step d isErr msg st).2.1) :=
  ⟨fun decode now cfg st => start_instance_no_chanop decode now cfg st,
   fun iid st => close_instance_no_chanop iid st,
   fun now ttl st => sweep_no_chanop now ttl st,
   fun e n1 n2 msg st ins hl hph => handle_event_chanop_locked e n1 n2 msg st ins hl hph,
   fun d isErr msg st lk => _step_no_acquire d isErr msg st lk⟩

/-- C3 amended, witness at concrete inputs. -/
theorem lock_discipline_amended_witness :
    hasChanOp (start_instance demoDecode 7 ⟨"demo", "\x7b\x7d"⟩ demoSt).2.1 = false ∧
    hasChanOp (close_instance 0 demoSt).2.1 = false ∧
    hasChanOp (_clear_expired_plugins_once 100 10 demoSt).2 = false ∧
    chanOpWhileLocked (handle_event ⟨0, "access"⟩ 10 11 "m" demoSt).2.1 [] = true ∧
    Action.acquire E_LOCK ∉ (_step ⟨0, none⟩ false ("next") demoSt).2.1 :=
  ⟨lock_discipline_amended.1 demoDecode 7 ⟨"demo", "\x7b\x7d"⟩ demoSt,
   lock_discipline_amended.2.1 0 demoSt,
   lock_discipline_amended.2.2.1 100 10 demoSt,
   lock_discipline_amended.2.2.2.1 ⟨0, "access"⟩ 10 11 "m" demoSt demoIns rfl
     (by decide),
   lock_discipline_amended.2.2.2.2 ⟨0, none⟩ false ("next") demoSt E_LOCK⟩

/-- C4: the claim says get_plugin_info on an unregistered name fails with
NotFound.  The code instead raises TypeError, because the not-found message
" not initizlied" has no conversion specifier for the %-formatting; for a
registered name the projection with the declared phases, priority and
schema (verbatim inside the record envelope) is returned as claimed. -/
theorem get_plugin_info_notfound_format_defect :
    get_plugin_info emptySt ("ghost") =
      .error (.typeError TE_NOT_ALL_ARGS) ∧
    get_plugin_info demoSt ("demo") =
      .ok (some { Name := "demo", Phases := demoPlugin.phases,
                  Priority := demoPlugin.priority, Schema := demoSchemaWrapped }, none) :=
  ⟨rfl, rfl⟩

/-- C5 counterexample: start_instance on an unknown name raises (and with
TypeError, not a NotFound error), and on a malformed payload raises the
JSON decode error; neither failure is returned as a (result, error) pair. -/
theorem start_instance_raises_counterexample :
    (start_instance demoDecode 7 ⟨"nope", "\x7b\x7d"⟩ emptySt).2.2 =
      .error (.typeError TE_NOT_ALL_ARGS) ∧
    (start_instance demoDecode 7 ⟨"demo", "oops"⟩ demoSt).2.2 =
      .error .jsonDecodeError :=
  ⟨rfl, rfl⟩

/-- C5 amended: start_instance fails on an unknown name by raising a
TypeError (the intended NotFound raise dies in the malformed format string)
and on a malformed payload by raising the JSON decode error; both failures
propagate as exceptions, not as (result, error) pairs, and leave the state
unchanged. -/
theorem start_instance_error_paths (decode : String → Option Json) (now : Nat)
    (cfg : StartCfg) (st : ServerState) :
    (lookupA st.plugins cfg.Name = none →
       (start_instance decode now cfg st).2.2 =
         .error (.typeError TE_NOT_ALL_ARGS) ∧
       (start_instance decode now cfg st).1 = st) ∧
    (∀ p, lookupA st.plugins cfg.Name = some p → decode cfg.Config = none →
       (start_instance decode now cfg st).2.2 = .error .jsonDecodeError ∧
       (start_instance decode now cfg st).1 = st) := by
  constructor
  · intro h
    simp [start_instance, locked_by, start_instance_body, h, fmt_not_initizlied]
  · intro p hp hd
    simp [start_instance, locked_by, start_instance_body, hp, hd]

/-- C5 amended, witness at concrete inputs. -/
theorem start_instance_error_paths_witness :
    ((start_instance demoDecode 7 ⟨"ghost", "\x7b\x7d"⟩ emptySt).2.2 =
       .error (.typeError TE_NOT_ALL_ARGS) ∧
     (start_instance demoDecode 7 ⟨"ghost", "\x7b\x7d"⟩ emptySt).1 = emptySt) ∧
    ((start_instance demoDecode 7 ⟨"demo", "oops"⟩ demoSt).2.2 =
       .error .jsonDecodeError ∧
     (start_instance demoDecode 7 ⟨"demo", "oops"⟩ demoSt).1 = demoSt) :=
  ⟨(start_instance_error_paths demoDecode 7 ⟨"ghost", "\x7b\x7d"⟩ emptySt).1 rfl,
   (start_instance_error_paths demoDecode 7 ⟨"demo", "oops"⟩ demoSt).2 demoPlugin rfl rfl⟩

/-- C6: after a successful begin the continuation table contains the
returned event id; a resume observing the terminal sentinel removes it; and
every other operation (including non-terminal resumes and resumes of other
events) preserves a live event id. -/
theorem continuation_table_lifecycle (decode : String → Option Json) :
    (∀ e n1 n2 msg st res err,
       (handle_event e n1 n2 msg st).2.2 = Except.ok (some res, err) →
       memE (handle_event e n1 n2 msg st).1 res.EventId = true) ∧
    (∀ d isErr st, memE st d.EventId = true →
       memE (_step d isErr MSG_RET st).1 d.EventId = false) ∧
    (∀ st eid op, memE st eid = true → isTerminalStepOn eid op = false →
       memE (applyOp decode st op).1 eid = true) :=
  ⟨fun e n1 n2 msg st res err h => handle_event_inserts e n1 n2 msg st res err h,
   fun d isErr st h => _step_terminal_removes d isErr st h,
   fun st eid op h1 h2 => applyOp_preserves_memE decode st eid op h1 h2⟩

/-- C6, witness at concrete inputs. -/
theorem continuation_table_lifecycle_witness :
    memE (handle_event ⟨0, "access"⟩ 10 11 "m" demoSt).1 1 = true ∧
    memE (_step ⟨0, none⟩ false MSG_RET demoSt).1 0 = false ∧
    memE (applyOp demoDecode demoSt (.stp ⟨0, none⟩ false ("other"))).1 0 = true :=
  ⟨(continuation_table_lifecycle demoDecode).1 ⟨0, "access"⟩ 10 11 "m" demoSt
     ⟨"m", 1⟩ none rfl,
   (continuation_table_lifecycle demoDecode).2.1 ⟨0, none⟩ false demoSt rfl,
   (continuation_table_lifecycle demoDecode).2.2 demoSt 0
     (.stp ⟨0, none⟩ false ("other")) rfl rfl⟩

/-- C7: over any sequence of coordinator operations from any state, the
instance ids returned by successful start_instance calls are pairwise
strictly increasing in call order, and likewise the event ids returned by
successful handle_event calls, so no id is ever reused. -/
theorem ids_strictly_increasing (decode : String → Option Json) (st : ServerState)
    (ops : List Op) :
    ((runOuts decode st ops).filterMap (fun o => o.startedId)).Pairwise (· < ·) ∧
    ((runOuts decode st ops).filterMap (fun o => o.beganEid)).Pairwise (· < ·) :=
  ⟨runOuts_started_pairwise decode ops st, runOuts_began_pairwise decode ops st⟩

/-- C8: after close_instance on any id, whether it returned, reported
not-found, or raised from the subscript defect, the id is absent from the
instance table and instance_status on it yields the not-found pair. -/
theorem close_then_status_not_found (st : ServerState) (iid : Nat) :
    lookupA (close_instance iid st).1.instances iid = none ∧
    isNotFoundPair (instance_status (close_instance iid st).1 iid) = true :=
  ⟨close_instance_removes iid st,
   instance_status_not_found _ iid (close_instance_removes iid st)⟩

/-- C9: step_service, step_consumer, step_route, step_plugin,
step_credential, step_memory_stats and step_multi_map are the very same
function as step, hence behave identically on every input. -/
theorem step_aliases_identical (d : StepData) (workerMsg : String) (st : ServerState) :
    step_service d workerMsg st = step d workerMsg st ∧
    step_consumer d workerMsg st = step d workerMsg st ∧
    step_route d workerMsg st = step d workerMsg st ∧
    step_plugin d workerMsg st = step d workerMsg st ∧
    step_credential d workerMsg st = step d workerMsg st ∧
    step_memory_stats d workerMsg st = step d workerMsg st ∧
    step_multi_map d workerMsg st = step d workerMsg st :=
  ⟨rfl, rfl, rfl, rfl, rfl, rfl, rfl⟩

/-- C10: a sweep pass never emits the close hook while it deletes every
expired entry, whereas close_instance on a present id runs the close hook
and only then deletes the entry; hence an instance evicted by the sweeper
never has its close hook run. -/
theorem sweeper_never_runs_close_hook (now ttl : Nat) (st : ServerState) :
    (∀ iid, Action.closeCb iid ∉ (_clear_expired_plugins_once now ttl st).2) ∧
    (∀ iid ins, (st.instances.map Prod.fst).Nodup →
       lookupA st.instances iid = some ins → ins.is_expired now ttl = true →
       lookupA (_clear_expired_plugins_once now ttl st).1.instances iid = none) ∧
    (∀ iid ins, lookupA st.instances iid = some ins →
       (close_instance iid st).2.1 =
         [Action.acquire I_LOCK, Action.closeCb iid, Action.delInstance iid,
          Action.release I_LOCK]) :=
  ⟨fun iid => sweep_no_closeCb now ttl st iid,
   fun iid ins hnd hl hexp => sweep_removes_expired now ttl st iid ins hnd hl hexp,
   fun iid ins hl => close_instance_trace iid st ins hl⟩

/-- C10, witness at concrete inputs. -/
theorem sweeper_never_runs_close_hook_witness :
    Action.closeCb 0 ∉ (_clear_expired_plugins_once 100 10 demoSt).2 ∧
    lookupA (_clear_expired_plugins_once 100 10 demoSt).1.instances 0 = none ∧
    (close_instance 0 demoSt).2.1 =
      [Action.acquire I_LOCK, Action.closeCb 0, Action.delInstance 0,
       Action.release I_LOCK] :=
  ⟨(sweeper_never_runs_close_hook 100 10 demoSt).1 0,
   (sweeper_never_runs_close_hook 100 10 demoSt).2.1 0 demoIns (by decide) rfl rfl,
   (sweeper_never_runs_close_hook 100 10 demoSt).2.2 0 demoIns rfl⟩

end KongPdk
